import Mathlib

/-!
Verification of the realtime session proxy server (src/server.py).

The server has one non-trivial handler, `realtime_chat_session`, registered
at GET /session.  It builds a fixed outbound POST to the OpenAI realtime
sessions URL, authenticated with a bearer credential taken from process-wide
settings, and relays the upstream response: a non-200 upstream status is
re-raised as an HTTPException with the upstream status and body text, a 200
status has its body parsed as JSON and returned.

The embedding below is shallow: the network is an oracle function from the
outbound request to an upstream result, and the handler returns, next to its
outcome, the list of outbound calls it issued, so that frame properties
(exactly one call, fixed payload, fixed timeout) are visible in the result.
Library collaborators that the handler relies on are modelled from their
documented behaviour: pydantic settings construction, Python json.loads, and
the FastAPI/Starlette mapping from handler outcomes to HTTP responses.
-/

namespace RealtimeProxy

/-- Application settings, from class Settings(BaseSettings) in src/server.py
lines 9 to 16: a single required string field named OPENAI_API_KEY. -/
structure Settings where
  OPENAI_API_KEY : String
deriving Repr, DecidableEq

/-- Models pydantic construction at module import, src/server.py line 18
(settings = Settings()).  The environment is a lookup function (the merge of
process environment variables and the .env file).  Pydantic raises a
ValidationError when the required field is missing; any string value that is
present, the empty string included, validates as str, because the field is
annotated plain str with no length constraint. -/
def Settings.ofEnv (env : String → Option String) : Except String Settings :=
  match env "OPENAI_API_KEY" with
  | none => .error "ValidationError: OPENAI_API_KEY field required"
  | some v => .ok ⟨v⟩

/-- A JSON value as produced by the json.loads model.  Number tokens, and the
NaN, Infinity and -Infinity constants json.loads accepts by default, are kept
as their source text, which is exact and avoids committing to a float
semantics; no claim inspects numeric values.  An object is the dict
json.loads builds: keys are distinct, a repeated source key having kept its
first position with its last value. -/
inductive Json where
  | null
  | bool (b : Bool)
  | num (raw : String)
  | str (s : String)
  | arr (elems : List Json)
  | obj (members : List (String × Json))

/-- JSON insignificant whitespace: space, tab, line feed, carriage return. -/
def isJsonWs (c : Char) : Bool :=
  c == ' ' || c == '\t' || c == '\n' || c == '\r'

/-- Drop leading JSON whitespace. -/
def skipWs : List Char → List Char
  | c :: cs => if isJsonWs c then skipWs cs else c :: cs
  | [] => []

/-- Longest leading run of decimal digits, with the remainder. -/
def takeDigits : List Char → List Char × List Char
  | c :: cs =>
    if c.isDigit then
      let (ds, r) := takeDigits cs
      (c :: ds, r)
    else ([], c :: cs)
  | [] => ([], [])

/-- Value of one hexadecimal digit, computed on code points: 48 to 57 are
the digits, 97 to 102 the lowercase and 65 to 70 the uppercase letters. -/
def hexDigitVal (c : Char) : Option Nat :=
  let n := c.toNat
  if 48 ≤ n ∧ n ≤ 57 then some (n - 48)
  else if 97 ≤ n ∧ n ≤ 102 then some (n - 87)
  else if 65 ≤ n ∧ n ≤ 70 then some (n - 55)
  else none

/-- Match an expected literal tail (used for null, true, false and the NaN
and Infinity constants). -/
def expectLit : List Char → List Char → Option (List Char)
  | [], cs => some cs
  | p :: ps, c :: cs => if c = p then expectLit ps cs else none
  | _ :: _, [] => none

/-- Insert one parsed member into the dict being built, as CPython dict
assignment does: a key already present keeps its position and takes the new
value; a new key is appended. -/
def dictInsert : List (String × Json) → String → Json → List (String × Json)
  | [], k, v => [(k, v)]
  | (k0, v0) :: tl, k, v =>
    if k0 = k then (k0, v) :: tl else (k0, v0) :: dictInsert tl k v

/-- The dict json.loads builds from the syntactic member list: members assign
into the dict in source order, so the last value of a repeated key wins. -/
def mkDict (ms : List (String × Json)) : List (String × Json) :=
  ms.foldl (fun acc kv => dictInsert acc kv.1 kv.2) []

/-- Body of a JSON string after the opening quote, as strict-mode json.loads
(the httpx default) reads it: a raw control character below U+0020 is a
JSONDecodeError, the standard escapes are decoded, and a \u escape denoting
a high surrogate followed by a \u escape denoting a low surrogate decodes as
the pair to one astral character.  A \u escape denoting a lone surrogate is
left out of the model's domain: Python builds a string holding a lone
surrogate code unit, which no Lean string of scalar values can represent.
Fueled; each step consumes input, so fuel above the input length is
enough. -/
def parseStringBody : Nat → List Char → List Char → Option (String × List Char)
  | 0, _, _ => none
  | _ + 1, _, [] => none
  | fuel + 1, acc, c :: cs =>
    if c = '"' then some (String.mk acc.reverse, cs)
    else if c = '\\' then
      match cs with
      | [] => none
      | e :: cs2 =>
        if e = '"' then parseStringBody fuel ('"' :: acc) cs2
        else if e = '\\' then parseStringBody fuel ('\\' :: acc) cs2
        else if e = '/' then parseStringBody fuel ('/' :: acc) cs2
        else if e = 'b' then parseStringBody fuel ('\x08' :: acc) cs2
        else if e = 'f' then parseStringBody fuel ('\x0c' :: acc) cs2
        else if e = 'n' then parseStringBody fuel ('\n' :: acc) cs2
        else if e = 'r' then parseStringBody fuel ('\r' :: acc) cs2
        else if e = 't' then parseStringBody fuel ('\t' :: acc) cs2
        else if e = 'u' then
          match cs2 with
          | h1 :: h2 :: h3 :: h4 :: cs3 =>
            match hexDigitVal h1, hexDigitVal h2, hexDigitVal h3, hexDigitVal h4 with
            | some a, some b, some c2, some d =>
              let n := ((a * 16 + b) * 16 + c2) * 16 + d
              if n < 0xd800 ∨ 0xdfff < n then
                parseStringBody fuel (Char.ofNat n :: acc) cs3
              else if n ≤ 0xdbff then
                match cs3 with
                | '\\' :: 'u' :: g1 :: g2 :: g3 :: g4 :: cs4 =>
                  match hexDigitVal g1, hexDigitVal g2, hexDigitVal g3, hexDigitVal g4 with
                  | some a2, some b2, some c3, some d2 =>
                    let m := ((a2 * 16 + b2) * 16 + c3) * 16 + d2
                    if 0xdc00 ≤ m ∧ m ≤ 0xdfff then
                      parseStringBody fuel
                        (Char.ofNat (0x10000 + (n - 0xd800) * 0x400 + (m - 0xdc00)) :: acc)
                        cs4
                    else none
                  | _, _, _, _ => none
                | _ => none
              else none
            | _, _, _, _ => none
          | _ => none
        else none
    else if c.toNat < 32 then none
    else parseStringBody fuel (c :: acc) cs

/-- Optional fraction part of a number: a dot followed by one or more digits,
as in the Python json number grammar; anything else matches nothing. -/
def parseFracPart : List Char → List Char × List Char
  | '.' :: rest =>
    match takeDigits rest with
    | ([], _) => ([], '.' :: rest)
    | (ds, r) => ('.' :: ds, r)
  | cs => ([], cs)

/-- Optional exponent part of a number: e or E, an optional sign, then one or
more digits; anything else matches nothing. -/
def parseExpPart : List Char → List Char × List Char
  | e :: rest =>
    if e = 'e' || e = 'E' then
      match rest with
      | s :: rest2 =>
        if s = '+' || s = '-' then
          match takeDigits rest2 with
          | ([], _) => ([], e :: rest)
          | (ds, r) => (e :: s :: ds, r)
        else
          match takeDigits (s :: rest2) with
          | ([], _) => ([], e :: rest)
          | (ds, r) => (e :: ds, r)
      | [] => ([], [e])
    else ([], e :: rest)
  | [] => ([], [])

/-- A JSON number token, following the Python json grammar: an optional minus,
an integer part that is 0 or starts with a nonzero digit, then optional
fraction and exponent.  The token is returned as raw text. -/
def parseNumberRaw (cs : List Char) : Option (String × List Char) :=
  let (sign, rest) : List Char × List Char :=
    match cs with
    | '-' :: r => (['-'], r)
    | r => ([], r)
  match rest with
  | c :: r1 =>
    if c = '0' then
      let (frac, r2) := parseFracPart r1
      let (ex, r3) := parseExpPart r2
      some (String.mk (sign ++ [c] ++ frac ++ ex), r3)
    else if c.isDigit then
      let (ds, r2) := takeDigits (c :: r1)
      let (frac, r3) := parseFracPart r2
      let (ex, r4) := parseExpPart r3
      some (String.mk (sign ++ ds ++ frac ++ ex), r4)
    else none
  | [] => none

mutual

/-- One JSON value after optional leading whitespace, including the NaN,
Infinity and -Infinity constants json.loads accepts by default.  Fueled
mutual recursion; the fuel chosen by json_loads is ample for any input. -/
def parseValue : Nat → List Char → Option (Json × List Char)
  | 0, _ => none
  | fuel + 1, cs =>
    match skipWs cs with
    | [] => none
    | c :: rest =>
      if c = 'n' then
        match expectLit ['u', 'l', 'l'] rest with
        | some r => some (.null, r)
        | none => none
      else if c = 't' then
        match expectLit ['r', 'u', 'e'] rest with
        | some r => some (.bool true, r)
        | none => none
      else if c = 'f' then
        match expectLit ['a', 'l', 's', 'e'] rest with
        | some r => some (.bool false, r)
        | none => none
      else if c = 'N' then
        match expectLit ['a', 'N'] rest with
        | some r => some (.num "NaN", r)
        | none => none
      else if c = 'I' then
        match expectLit ['n', 'f', 'i', 'n', 'i', 't', 'y'] rest with
        | some r => some (.num "Infinity", r)
        | none => none
      else if c = '"' then
        match parseStringBody (rest.length + 1) [] rest with
        | some (s, r) => some (.str s, r)
        | none => none
      else if c = '[' then parseArrayRest fuel rest
      else if c = '\x7b' then parseObjRest fuel rest
      else if c = '-' then
        match expectLit ['I', 'n', 'f', 'i', 'n', 'i', 't', 'y'] rest with
        | some r => some (.num "-Infinity", r)
        | none =>
          match parseNumberRaw (c :: rest) with
          | some (s, r) => some (.num s, r)
          | none => none
      else
        match parseNumberRaw (c :: rest) with
        | some (s, r) => some (.num s, r)
        | none => none

/-- Array continuation, after the opening bracket. -/
def parseArrayRest : Nat → List Char → Option (Json × List Char)
  | 0, _ => none
  | fuel + 1, cs =>
    match skipWs cs with
    | ']' :: r => some (.arr [], r)
    | cs2 =>
      match parseElems fuel cs2 with
      | some (js, r) => some (.arr js, r)
      | none => none

/-- Object continuation, after the opening brace; the syntactic member list
collapses into the dict json.loads returns. -/
def parseObjRest : Nat → List Char → Option (Json × List Char)
  | 0, _ => none
  | fuel + 1, cs =>
    match skipWs cs with
    | '\x7d' :: r => some (.obj [], r)
    | cs2 =>
      match parseMembers fuel cs2 with
      | some (ms, r) => some (.obj (mkDict ms), r)
      | none => none

/-- One or more comma-separated array elements, up to the closing bracket. -/
def parseElems : Nat → List Char → Option (List Json × List Char)
  | 0, _ => none
  | fuel + 1, cs =>
    match parseValue fuel cs with
    | none => none
    | some (j, r) =>
      match skipWs r with
      | ',' :: r2 =>
        match parseElems fuel r2 with
        | some (js, r3) => some (j :: js, r3)
        | none => none
      | ']' :: r2 => some ([j], r2)
      | _ => none

/-- One or more comma-separated object members, up to the closing brace, as
the syntactic list in source order; parseObjRest folds it into a dict. -/
def parseMembers : Nat → List Char → Option (List (String × Json) × List Char)
  | 0, _ => none
  | fuel + 1, cs =>
    match skipWs cs with
    | '"' :: r =>
      match parseStringBody (r.length + 1) [] r with
      | none => none
      | some (k, r1) =>
        match skipWs r1 with
        | ':' :: r2 =>
          match parseValue fuel r2 with
          | none => none
          | some (v, r3) =>
            match skipWs r3 with
            | ',' :: r4 =>
              match parseMembers fuel r4 with
              | some (ms, r5) => some ((k, v) :: ms, r5)
              | none => none
            | '\x7d' :: r4 => some ([(k, v)], r4)
            | _ => none
        | _ => none
    | _ => none

end

/-- Models Python json.loads, in its default configuration (strict mode, the
default parse hooks), as called by httpx Response.json() on line 64: one
JSON document with nothing but whitespace around it; anything else is a
JSONDecodeError, here none. -/
def json_loads (s : String) : Option Json :=
  match parseValue (4 * s.length + 16) s.data with
  | some (j, rest) =>
    match skipWs rest with
    | [] => some j
    | _ => none
  | none => none

/-- The caller's GET /session request as delivered by FastAPI routing.  The
handler on lines 41 to 64 declares no parameter bound to the request, so no
part of it can reach the handler body. -/
structure CallerRequest where
  queryParams : List (String × String)
  headers : List (String × String)
deriving Repr

/-- The outbound HTTP request the handler issues: URL, headers, JSON payload
as key-value pairs, and the httpx client timeout in seconds. -/
structure OutboundRequest where
  url : String
  headers : List (String × String)
  payload : List (String × String)
  timeoutSeconds : Nat
deriving Repr, DecidableEq

/-- The outbound request built on src/server.py lines 48 to 59: fixed URL,
bearer authorization from the settings, JSON content type, the fixed model
and voice payload, and the 30 second AsyncClient timeout. -/
def buildRequest (cfg : Settings) : OutboundRequest :=
  { url := "https://api.openai.com/v1/realtime/sessions"
  , headers :=
      [ ("Authorization", "Bearer " ++ cfg.OPENAI_API_KEY)
      , ("Content-Type", "application/json") ]
  , payload :=
      [ ("model", "gpt-4o-realtime-preview-2025-06-03")
      , ("voice", "verse") ]
  , timeoutSeconds := 30 }

/-- An httpx request failure: the exceptions client.post can raise in place
of returning a response. -/
inductive NetworkError where
  | timeout
  | connectError
deriving Repr, DecidableEq

/-- What one upstream call produces: a response with a status code and a body
text, or a raised network error. -/
inductive UpstreamResult where
  | response (status : Nat) (body : String)
  | failure (e : NetworkError)
deriving Repr, DecidableEq

/-- An exception that escapes the handler uncaught: a network error from
client.post, or a JSONDecodeError from resp.json(). -/
inductive UnhandledError where
  | network (e : NetworkError)
  | jsonDecode
deriving Repr, DecidableEq

/-- How one invocation of the handler ends: a returned JSON value (line 64),
a raised HTTPException with a status code and a detail (line 62), or an
exception that propagates uncaught. -/
inductive Outcome where
  | success (body : Json)
  | httpError (status : Nat) (detail : String)
  | unhandled (e : UnhandledError)

/-- The GET /session handler, src/server.py lines 41 to 64.  The network is
the oracle net, applied to the built request exactly once, mirroring the
single await client.post on line 59; the handler also returns the list of
outbound calls it issued.  On a non-200 status it raises HTTPException with
the upstream status code and body text; on a 200 status it parses the body
as JSON and returns the parsed value; a network error or a parse error is
not caught. -/
def realtime_chat_session (cfg : Settings) (_req : CallerRequest)
    (net : OutboundRequest → UpstreamResult) : Outcome × List OutboundRequest :=
  let request := buildRequest cfg
  let result := net request
  ((match result with
    | .failure e => .unhandled (.network e)
    | .response status text =>
      if status ≠ 200 then .httpError status text
      else
        match json_loads text with
        | some j => .success j
        | none => .unhandled .jsonDecode), [request])

/-- Body of the HTTP response the caller receives. -/
inductive ResponseBody where
  | json (j : Json)
  | detail (text : String)
  | internalError

/-- The HTTP response the caller receives. -/
structure HttpResponse where
  status : Nat
  body : ResponseBody

/-- Models how FastAPI and Starlette turn the handler outcome into the HTTP
response: a returned value becomes a 200 JSON response; a raised
HTTPException with status s and detail d becomes a response with status s
carrying d as the error detail; any other exception reaches the server error
middleware, which answers 500 Internal Server Error. -/
def toHttpResponse : Outcome → HttpResponse
  | .success j => ⟨200, .json j⟩
  | .httpError s d => ⟨s, .detail d⟩
  | .unhandled _ => ⟨500, .internalError⟩

/-- Substring occurrence: needle occurs contiguously inside hay. -/
def occursIn (needle hay : String) : Prop :=
  ∃ p s, hay = p ++ needle ++ s

/-- C1: for every request to GET /session, when the upstream call returns
status 200 with body B and B parses as the JSON value j, the handler returns
j verbatim, so the endpoint responds with status 200 and the same JSON
content as B. -/
theorem session_relays_ok_json (cfg : Settings) (req : CallerRequest)
    (net : OutboundRequest → UpstreamResult) (B : String) (j : Json)
    (h1 : net (buildRequest cfg) = .response 200 B)
    (h2 : json_loads B = some j) :
    (realtime_chat_session cfg req net).1 = .success j ∧
      toHttpResponse (realtime_chat_session cfg req net).1 = ⟨200, .json j⟩ := by
  have h : (realtime_chat_session cfg req net).1 = .success j := by
    simp [realtime_chat_session, h1, h2]
  exact ⟨h, by rw [h]; rfl⟩

/-- Witness for C1, on the spec scenario: upstream answers 200 with a session
object, and the endpoint returns that object parsed. -/
theorem session_relays_ok_json_witness :
    (realtime_chat_session ⟨"sk-test"⟩ ⟨[], []⟩
        (fun _ => .response 200 "\x7b\"id\": \"sess_1\", \"expires_at\": 123\x7d")).1 =
      .success (.obj [("id", .str "sess_1"), ("expires_at", .num "123")]) :=
  (session_relays_ok_json ⟨"sk-test"⟩ ⟨[], []⟩
    (fun _ => .response 200 "\x7b\"id\": \"sess_1\", \"expires_at\": 123\x7d")
    "\x7b\"id\": \"sess_1\", \"expires_at\": 123\x7d"
    (.obj [("id", .str "sess_1"), ("expires_at", .num "123")]) rfl rfl).1

/-- C2: for every request to GET /session, when the upstream call returns a
non-200 status S with body text T, the handler raises an HTTPException whose
status code is S and whose detail is T, so the caller receives status S with
detail T. -/
theorem session_maps_upstream_error (cfg : Settings) (req : CallerRequest)
    (net : OutboundRequest → UpstreamResult) (S : Nat) (T : String)
    (h1 : net (buildRequest cfg) = .response S T) (h2 : S ≠ 200) :
    (realtime_chat_session cfg req net).1 = .httpError S T ∧
      toHttpResponse (realtime_chat_session cfg req net).1 = ⟨S, .detail T⟩ := by
  have h : (realtime_chat_session cfg req net).1 = .httpError S T := by
    simp [realtime_chat_session, h1, h2]
  exact ⟨h, by rw [h]; rfl⟩

/-- Witness for C2, on the spec scenario: upstream answers 401 with an error
body, and the endpoint fails with status 401 and that body as the detail. -/
theorem session_maps_upstream_error_witness :
    (realtime_chat_session ⟨"sk-test"⟩ ⟨[], []⟩
        (fun _ => .response 401 "\x7b\"error\": \"invalid_api_key\"\x7d")).1 =
      .httpError 401 "\x7b\"error\": \"invalid_api_key\"\x7d" :=
  (session_maps_upstream_error ⟨"sk-test"⟩ ⟨[], []⟩
    (fun _ => .response 401 "\x7b\"error\": \"invalid_api_key\"\x7d")
    401 "\x7b\"error\": \"invalid_api_key\"\x7d" rfl (by decide)).1

/-- C3: every invocation of GET /session issues exactly the built request,
whose body is the fixed literal model and voice payload, whatever the caller
request and the network behaviour are. -/
theorem session_payload_fixed (cfg : Settings) (req : CallerRequest)
    (net : OutboundRequest → UpstreamResult) :
    (realtime_chat_session cfg req net).2 = [buildRequest cfg] ∧
      (buildRequest cfg).payload =
        [("model", "gpt-4o-realtime-preview-2025-06-03"), ("voice", "verse")] :=
  ⟨rfl, rfl⟩

/-- C4 as stated is refuted: with credential sk-test, an upstream 401 whose
body quotes the credential is relayed verbatim as the error detail, so the
credential does occur in a response body returned to the caller. -/
theorem session_credential_leak_counterexample :
    (realtime_chat_session ⟨"sk-test"⟩ ⟨[], []⟩
        (fun _ => .response 401 "Incorrect API key provided: sk-test")).1 =
      .httpError 401 "Incorrect API key provided: sk-test" ∧
      occursIn "sk-test" "Incorrect API key provided: sk-test" :=
  ⟨rfl, ⟨"Incorrect API key provided: ", "", rfl⟩⟩

/-- C4 amended: the Authorization header value is exactly Bearer followed by
the configured credential, and the handler itself never injects the
credential into the response: the outcome is a function of the upstream
result alone, so two invocations with different credentials whose upstream
results agree produce the same response; the credential can reach the caller
only inside the upstream body. -/
theorem session_auth_header_and_noninterference
    (cfg₁ cfg₂ : Settings) (req₁ req₂ : CallerRequest)
    (net₁ net₂ : OutboundRequest → UpstreamResult)
    (h : net₁ (buildRequest cfg₁) = net₂ (buildRequest cfg₂)) :
    List.lookup "Authorization" (buildRequest cfg₁).headers =
        some ("Bearer " ++ cfg₁.OPENAI_API_KEY) ∧
      (realtime_chat_session cfg₁ req₁ net₁).1 =
        (realtime_chat_session cfg₂ req₂ net₂).1 := by
  refine ⟨rfl, ?_⟩
  simp only [realtime_chat_session, h]

/-- Witness for the amended C4: two invocations with distinct credentials and
the same upstream result give identical outcomes. -/
theorem session_auth_header_and_noninterference_witness :
    (realtime_chat_session ⟨"key-one"⟩ ⟨[], []⟩ (fun _ => .response 200 "\x7b\x7d")).1 =
      (realtime_chat_session ⟨"key-two"⟩ ⟨[], []⟩ (fun _ => .response 200 "\x7b\x7d")).1 :=
  (session_auth_header_and_noninterference ⟨"key-one"⟩ ⟨"key-two"⟩ ⟨[], []⟩ ⟨[], []⟩
    (fun _ => .response 200 "\x7b\x7d") (fun _ => .response 200 "\x7b\x7d") rfl).2

/-- C5 as stated is refuted: an environment that binds OPENAI_API_KEY to the
empty string constructs the settings successfully, because the field is a
plain str with no length constraint; startup proceeds with an empty
credential. -/
theorem settings_empty_credential_accepted :
    Settings.ofEnv (fun _ => some "") = .ok ⟨""⟩ := rfl

/-- C5 amended: settings construction, hence startup, fails exactly when the
credential variable is absent from the environment; any present value, the
empty string included, is accepted and startup proceeds. -/
theorem settings_ofEnv_spec (env : String → Option String) :
    (env "OPENAI_API_KEY" = none →
        Settings.ofEnv env =
          .error "ValidationError: OPENAI_API_KEY field required") ∧
      (∀ v, env "OPENAI_API_KEY" = some v → Settings.ofEnv env = .ok ⟨v⟩) := by
  constructor
  · intro h
    simp [Settings.ofEnv, h]
  · intro v h
    simp [Settings.ofEnv, h]

/-- Witness for the amended C5: with the variable absent, construction is the
validation error, so the process never reaches a serving state. -/
theorem settings_ofEnv_spec_witness :
    Settings.ofEnv (fun _ => none) =
      .error "ValidationError: OPENAI_API_KEY field required" :=
  (settings_ofEnv_spec (fun _ => none)).1 rfl

/-- C6: every invocation issues its single upstream call, the only network
interaction in the call log, with a 30 second timeout, and an exceeded
timeout surfaces as a request failure instead of a hang. -/
theorem session_timeout_thirty (cfg : Settings) (req : CallerRequest)
    (net : OutboundRequest → UpstreamResult) :
    (realtime_chat_session cfg req net).2 = [buildRequest cfg] ∧
      (buildRequest cfg).timeoutSeconds = 30 ∧
      (net (buildRequest cfg) = .failure .timeout →
        (realtime_chat_session cfg req net).1 = .unhandled (.network .timeout)) := by
  refine ⟨rfl, rfl, fun h => ?_⟩
  simp [realtime_chat_session, h]

/-- Witness for C6: a timed-out upstream call ends the invocation with the
propagated timeout failure. -/
theorem session_timeout_thirty_witness :
    (realtime_chat_session ⟨"sk-test"⟩ ⟨[], []⟩ (fun _ => .failure .timeout)).1 =
      .unhandled (.network .timeout) :=
  (session_timeout_thirty ⟨"sk-test"⟩ ⟨[], []⟩ (fun _ => .failure .timeout)).2.2 rfl

/-- C7: when the upstream call raises a network error, the handler does not
catch it: the outcome is the propagated exception, the framework answers
500, and the outcome is never a mapped HTTPException. -/
theorem session_network_error_unhandled (cfg : Settings) (req : CallerRequest)
    (net : OutboundRequest → UpstreamResult) (e : NetworkError)
    (h : net (buildRequest cfg) = .failure e) :
    (realtime_chat_session cfg req net).1 = .unhandled (.network e) ∧
      (toHttpResponse (realtime_chat_session cfg req net).1).status = 500 ∧
      ∀ s d, (realtime_chat_session cfg req net).1 ≠ .httpError s d := by
  have hout : (realtime_chat_session cfg req net).1 = .unhandled (.network e) := by
    simp [realtime_chat_session, h]
  refine ⟨hout, by rw [hout]; rfl, fun s d hc => ?_⟩
  rw [hout] at hc
  exact Outcome.noConfusion hc

/-- Witness for C7: a connection error propagates unhandled. -/
theorem session_network_error_unhandled_witness :
    (realtime_chat_session ⟨"sk-test"⟩ ⟨[], []⟩ (fun _ => .failure .connectError)).1 =
      .unhandled (.network .connectError) :=
  (session_network_error_unhandled ⟨"sk-test"⟩ ⟨[], []⟩
    (fun _ => .failure .connectError) .connectError rfl).1

/-- C8: every invocation performs exactly one outbound call, with no retry
and no cached result: the call log has length one and consists of the full
freshly built request. -/
theorem session_single_call (cfg : Settings) (req : CallerRequest)
    (net : OutboundRequest → UpstreamResult) :
    (realtime_chat_session cfg req net).2.length = 1 ∧
      (realtime_chat_session cfg req net).2 = [buildRequest cfg] :=
  ⟨rfl, rfl⟩

/-- C9: the handler is stateless and deterministic: it reads nothing but the
read-only settings, so two invocations with the same configuration whose
upstream responses agree produce identical results, whatever the incoming
requests were. -/
theorem session_stateless_deterministic (cfg : Settings)
    (req₁ req₂ : CallerRequest) (net₁ net₂ : OutboundRequest → UpstreamResult)
    (h : net₁ (buildRequest cfg) = net₂ (buildRequest cfg)) :
    realtime_chat_session cfg req₁ net₁ = realtime_chat_session cfg req₂ net₂ := by
  simp only [realtime_chat_session, h]

/-- Witness for C9: two invocations with different caller requests and the
same upstream response coincide. -/
theorem session_stateless_deterministic_witness :
    realtime_chat_session ⟨"sk-test"⟩ ⟨[("a", "b")], []⟩
        (fun _ => .response 200 "\x7b\x7d") =
      realtime_chat_session ⟨"sk-test"⟩ ⟨[], [("x", "y")]⟩
        (fun _ => .response 200 "\x7b\x7d") :=
  session_stateless_deterministic ⟨"sk-test"⟩ ⟨[("a", "b")], []⟩ ⟨[], [("x", "y")]⟩
    (fun _ => .response 200 "\x7b\x7d") (fun _ => .response 200 "\x7b\x7d") rfl

end RealtimeProxy
